import Mathlib

/-!
# Verification of the live-data synchronization engine

Shallow embedding, in Lean 4, of the synchronization core of the
song-request application:

* `src/utils/realtimeManager.ts` — `EnhancedRealtimeManager`
  (priority debouncing / update coalescing, reconnection with exponential
  backoff, per-channel error retries, teardown, connection listeners);
* `src/hooks/useRequestSync.ts` — `fetchRequests`
  (in-flight mutual exclusion, rate limiting, cache-first, error handling);
* `src/utils/supabase.ts` — `RETRY_OPTIONS` and the retrying fetch wrapper;
* `UltraFastQueueView.handleLockRequest` and the `QueueView` queue reset
  (optimistic mutations).

Each definition is translated directly from the named source function.
Time is modelled as discrete milliseconds (`Nat`); the single-threaded
JavaScript event loop is modelled by explicit sequencing of handler
invocations and timer firings.
-/

/-! ## Update Coalescer — `realtimeManager.ts`, `createSubscription`

The `postgres_changes` handler (realtimeManager.ts lines 201-224): on each
incoming change event it clears any pending timeout stored in
`updateTimeouts` under this subscription's `channelId`, then stores a new
timeout that fires after `priorityDebounceDelays[priority]` milliseconds
and invokes the subscription callback with the payload of this (latest)
event, deleting the pending record.  Because `updateTimeouts` holds at most
one entry per `channelId`, the pending timer for one subscription is an
`Option`.
-/

namespace Coalescer

/-- Priority classes of a subscription (realtimeManager.ts line 9). -/
inductive Priority where
  | high
  | normal
  | low
deriving DecidableEq, Repr

/-- Source `priorityDebounceDelays` (realtimeManager.ts lines 38-42):
100ms for `high`, 250ms for `normal`, 500ms for `low`. -/
def priorityDebounceDelays : Priority → Nat
  | .high => 100
  | .normal => 250
  | .low => 500

/-- Event-loop simulation of the debounce handler for ONE subscription.

Input: the list of change events `(arrival time, payload)` in arrival
order, and the pending coalescing timer, if any, as
`some (fire time, stored payload)`.

Between two consecutive events the event loop fires the pending timer if
its fire time has arrived (`ft ≤ t`); the handler for an arriving event
cancels whatever timer is still pending (`clearTimeout`) and schedules a
new one at `t + delay` carrying this event's payload (`setTimeout`,
realtimeManager.ts lines 208-218).  After the last event the surviving
timer fires.  The result is the list of downstream callback invocations
`(fire time, payload)`. -/
def coalesceEvents (delay : Nat) :
    List (Nat × α) → Option (Nat × α) → List (Nat × α)
  | [], pending => pending.toList
  | (t, p) :: rest, pending =>
    match pending with
    | some (ft, q) =>
      if ft ≤ t then
        (ft, q) :: coalesceEvents delay rest (some (t + delay, p))
      else
        coalesceEvents delay rest (some (t + delay, p))
    | none => coalesceEvents delay rest (some (t + delay, p))

/-- Predicate `tight d t events` states that the events all arrive after time `t`
and each one strictly less than `d` milliseconds after its predecessor
(a burst with gaps shorter than the debounce delay). -/
def tight (d : Nat) : Nat → List (Nat × α) → Bool
  | _, [] => true
  | t, (t2, _) :: rest => (decide (t ≤ t2) && decide (t2 < t + d)) && tight d t2 rest

/-- The last element of a list, with a default for the empty list. -/
def lastD (dflt : α) (l : List α) : α :=
  l.foldl (fun _ x => x) dflt

end Coalescer

/-! ## Reconnection Controller — `realtimeManager.ts`, `attemptReconnection` -/

namespace Reconn

/-- The type of the `connectionStatus` field
(realtimeManager.ts line 23).  Note that it has no `error` value:
`'connecting' | 'connected' | 'disconnected'`. -/
inductive ConnStatus where
  | connecting
  | connected
  | disconnected
deriving DecidableEq, Repr

/-- The string representation of a stored status, as returned by
`getConnectionStatus()` (realtimeManager.ts lines 319-321). -/
def connStatusStr : ConnStatus → String
  | .connecting => "connecting"
  | .connected => "connected"
  | .disconnected => "disconnected"

/-- Source `maxReconnectAttempts` (realtimeManager.ts line 25). -/
def maxReconnectAttempts : Nat := 5

/-- Source `reconnectDelay` (realtimeManager.ts line 26). -/
def reconnectDelay : Nat := 1000

/-- State touched by the reconnection controller: the stored status and
attempt counter, the log of statuses passed to
`notifyConnectionListeners`, the delay of the currently scheduled
reconnection timer (if any), and the log of all delays ever scheduled. -/
structure ReconnState where
  connectionStatus : ConnStatus := .disconnected
  reconnectAttempts : Nat := 0
  broadcasts : List String := []
  pendingReconnectDelay : Option Nat := none
  delaysScheduled : List Nat := []
deriving DecidableEq, Repr

/-- Source `attemptReconnection` (realtimeManager.ts lines 111-136), up to the
point where the timer is scheduled.  If the attempt counter has reached
`maxReconnectAttempts`, it notifies listeners with `error` and returns —
note it does NOT assign the stored `connectionStatus`.  Otherwise it
increments the counter, notifies `connecting`, and schedules the timer
for `reconnectDelay * 2 ^ (reconnectAttempts - 1)` ms. -/
def attemptReconnection (s : ReconnState) : ReconnState :=
  if maxReconnectAttempts ≤ s.reconnectAttempts then
    { s with broadcasts := s.broadcasts ++ ["error"],
             pendingReconnectDelay := none }
  else
    let n := s.reconnectAttempts + 1
    let d := reconnectDelay * 2 ^ (n - 1)
    { s with reconnectAttempts := n,
             broadcasts := s.broadcasts ++ ["connecting"],
             pendingReconnectDelay := some d,
             delaysScheduled := s.delaysScheduled ++ [d] }

/-- The body of the scheduled reconnection timer
(realtimeManager.ts lines 124-135).  On success
(`reconnectAllChannels` resolved): status becomes `connected`, the
attempt counter resets to 0, listeners are notified `connected`.  On
failure: listeners are notified `error` and `attemptReconnection` is
called again. -/
def reconnectTimerFires (success : Bool) (s : ReconnState) : ReconnState :=
  let s := { s with pendingReconnectDelay := none }
  if success then
    { s with connectionStatus := .connected,
             reconnectAttempts := 0,
             broadcasts := s.broadcasts ++ ["connected"] }
  else
    attemptReconnection { s with broadcasts := s.broadcasts ++ ["error"] }

/-- Source `handleNetworkOnline` (realtimeManager.ts lines 162-166): notify
`connecting`, then call `attemptReconnection`.  It does NOT reset the
attempt counter. -/
def handleNetworkOnline (s : ReconnState) : ReconnState :=
  attemptReconnection { s with broadcasts := s.broadcasts ++ ["connecting"] }

/-- Fire the pending reconnection timer with failure, `k` times in a
row. -/
def iterateTimerFail : Nat → ReconnState → ReconnState
  | 0, s => s
  | k + 1, s => iterateTimerFail k (reconnectTimerFires false s)

/-- The run in which reconnection is triggered once from the initial
state and every attempt's `reconnectAllChannels` fails, until the
controller gives up. -/
def exhaustedRun : ReconnState :=
  iterateTimerFail 5 (attemptReconnection {})

end Reconn

/-! ## Subscription Registry, channel-error retries —
`realtimeManager.ts`, `createSubscription` (subscribe status handler)

`createSubscription` (lines 174-272) generates a FRESH channel id
`` `${table}_${nanoid(6)}` `` on every call (line 180).  The subscribe
status handler (lines 227-253), on `CHANNEL_ERROR`, notifies the
connection listeners with `error`, looks up the retry count stored under
the CURRENT channel id in `channelRetries`, and if it is below 3,
increments it and schedules `createSubscription(table, callback, filter,
priority)` — a call that creates a brand-new channel id whose retry count
starts at 0 — after `2000 * 2^retryCount` ms.  At 3 or more it only logs
and gives up; the failed channel is not unsubscribed or removed from
`activeChannels`.  Fresh nanoids are modelled by a counter. -/

namespace ChanRetry

/-- Registry state: the nanoid counter, the set of channels ever created
and still registered, the per-channel retry counters, the pending
re-creation timers (their delays, in scheduling order), the log of all
retry delays ever scheduled, and the statuses broadcast to connection
listeners. -/
structure ChanState where
  nextNanoid : Nat := 0
  activeChannels : List Nat := []
  channelRetries : List (Nat × Nat) := []
  pendingRetryCreates : List Nat := []
  retryDelaysScheduled : List Nat := []
  broadcasts : List String := []
deriving DecidableEq, Repr

/-- Retry count recorded for a channel id:
`this.channelRetries.get(channelId) || 0` (line 239). -/
def lookupRetries (s : ChanState) (cid : Nat) : Nat :=
  match s.channelRetries.lookup cid with
  | some r => r
  | none => 0

/-- Source `createSubscription` (lines 174-272), restricted to its registry
effects: allocate a fresh channel id and register it in
`activeChannels`.  Returns the new id. -/
def createSubscription (s : ChanState) : Nat × ChanState :=
  (s.nextNanoid,
   { s with nextNanoid := s.nextNanoid + 1,
            activeChannels := s.activeChannels ++ [s.nextNanoid] })

/-- The `CHANNEL_ERROR` branch of the subscribe status handler
(lines 234-252) for channel `cid`: notify listeners with `error`; if the
retry count for `cid` is below 3, record `retryCount + 1` for `cid` and
schedule a re-creation after `2000 * 2^retryCount` ms; otherwise give up
(log only — the channel stays registered). -/
def channelError (cid : Nat) (s : ChanState) : ChanState :=
  let s := { s with broadcasts := s.broadcasts ++ ["error"] }
  let retryCount := lookupRetries s cid
  if retryCount < 3 then
    let d := 2000 * 2 ^ retryCount
    { s with channelRetries := (cid, retryCount + 1) :: s.channelRetries,
             pendingRetryCreates := s.pendingRetryCreates ++ [d],
             retryDelaysScheduled := s.retryDelaysScheduled ++ [d] }
  else s

/-- Firing of the earliest scheduled re-creation timer: it calls
`createSubscription` (line 247), producing a channel with a FRESH id. -/
def retryTimerFires (s : ChanState) : ChanState :=
  match s.pendingRetryCreates with
  | [] => s
  | _ :: rest => (createSubscription { s with pendingRetryCreates := rest }).2

/-- One round of the failing chain: the most recently created channel
reports `CHANNEL_ERROR` and the resulting re-creation timer fires. -/
def chainRound (s : ChanState) : ChanState :=
  match s.activeChannels.getLast? with
  | some cid => retryTimerFires (channelError cid s)
  | none => s

/-- Run of `k` rounds of the failing chain, starting from one fresh
subscription. -/
def chainRun : Nat → ChanState
  | 0 => (createSubscription {}).2
  | k + 1 => chainRound (chainRun k)

/-- The run in which the SAME channel id reports `CHANNEL_ERROR` `k`
times (no re-creation timer fires in between). -/
def sameIdRun (k : Nat) : ChanState :=
  Nat.rec (createSubscription {}).2 (fun _ s => channelError 0 s) k

end ChanRetry

/-! ## Teardown — `realtimeManager.ts`, `removeSubscription` and `destroy`

`removeSubscription` (lines 274-293) unsubscribes the channel, deletes
its entries from `channelRetries` and `activeChannels`, and clears any
pending coalescing timeout stored for the id in `updateTimeouts`.
`destroy` (lines 352-379) clears the heartbeat interval, every timeout in
`updateTimeouts`, `channelRetries`, all subscriptions, and the connection
listeners.  The `setTimeout` handles created by the `CHANNEL_ERROR` retry
branch (line 246) and by `attemptReconnection` (line 124) are NOT stored
in any field, so neither `removeSubscription` nor `destroy` can cancel
them. -/

namespace Teardown

/-- Manager state relevant to teardown.  `updateTimeouts` maps a channel
id to the payload its pending coalescing timer would deliver;
`pendingChannelRetryTimers` counts the scheduled `CHANNEL_ERROR`
re-creation timers and `pendingReconnectTimers` the scheduled
reconnection timers — both untracked by the manager's own maps.
`coalescedCallbacksFired` logs the payloads delivered downstream by
coalescing timers. -/
structure MgrState where
  nextNanoid : Nat := 0
  activeChannels : List Nat := []
  updateTimeouts : List (Nat × Nat) := []
  channelRetries : List (Nat × Nat) := []
  pendingChannelRetryTimers : Nat := 0
  pendingReconnectTimers : Nat := 0
  heartbeatActive : Bool := false
  connectionListeners : List Nat := []
  coalescedCallbacksFired : List Nat := []
deriving DecidableEq, Repr

/-- Find the pending coalescing timeout for a channel id
(`this.updateTimeouts.get(channelId)`). -/
def findTimeout : List (Nat × Nat) → Nat → Option Nat
  | [], _ => none
  | (c, p) :: rest, cid => if c = cid then some p else findTimeout rest cid

/-- Delete the entry of a channel id from an association list
(`Map.delete`). -/
def deleteKey (l : List (Nat × Nat)) (cid : Nat) : List (Nat × Nat) :=
  l.filter (fun e => !(e.1 = cid))

/-- Source `removeSubscription` (lines 274-293): if the channel is registered,
unsubscribe it, delete its retry counter and registration, and clear its
pending coalescing timeout, if any. -/
def removeSubscription (cid : Nat) (s : MgrState) : MgrState :=
  if s.activeChannels.contains cid then
    { s with activeChannels := s.activeChannels.filter (fun c => !(c = cid)),
             channelRetries := deleteKey s.channelRetries cid,
             updateTimeouts := deleteKey s.updateTimeouts cid }
  else s

/-- Source `destroy` (lines 352-379): clear the heartbeat, every coalescing
timeout, the retry counters, all subscriptions, and the connection
listeners.  The untracked retry/reconnection `setTimeout`s are untouched
(the source never stored their handles). -/
def destroy (s : MgrState) : MgrState :=
  { s with heartbeatActive := false,
           updateTimeouts := [],
           channelRetries := [],
           activeChannels := [],
           connectionListeners := [] }

/-- A pending coalescing timer for channel `cid` fires: it delivers its
payload downstream and deletes its record — but only if its timeout is
still stored in `updateTimeouts` (`clearTimeout` on a cancelled handle
means the body never runs). -/
def coalescingTimerFires (cid : Nat) (s : MgrState) : MgrState :=
  match findTimeout s.updateTimeouts cid with
  | some p =>
    { s with coalescedCallbacksFired := s.coalescedCallbacksFired ++ [p],
             updateTimeouts := deleteKey s.updateTimeouts cid }
  | none => s

/-- An untracked `CHANNEL_ERROR` re-creation timer (line 246) fires: it
calls `createSubscription`, registering a channel under a fresh id —
regardless of any teardown that happened in between. -/
def channelRetryTimerFires (s : MgrState) : MgrState :=
  match s.pendingChannelRetryTimers with
  | 0 => s
  | k + 1 =>
    { s with pendingChannelRetryTimers := k,
             nextNanoid := s.nextNanoid + 1,
             activeChannels := s.activeChannels ++ [s.nextNanoid] }

/-- A concrete pre-teardown state: one registered channel whose
`CHANNEL_ERROR` handler has scheduled a re-creation timer. -/
def pendingRetryState : MgrState :=
  { nextNanoid := 1,
    activeChannels := [0],
    channelRetries := [(0, 1)],
    pendingChannelRetryTimers := 1 }

/-- A concrete state with one registered channel carrying a pending
coalescing timer. -/
def timerState : MgrState :=
  { nextNanoid := 1,
    activeChannels := [0],
    updateTimeouts := [(0, 7)] }

end Teardown

/-! ## Connection Health Monitor listeners — `realtimeManager.ts`

`addConnectionListener` (lines 295-303) adds the listener to the
`connectionListeners` Set (JavaScript Sets iterate in insertion order)
and immediately invokes it with the stored `connectionStatus`.
`notifyConnectionListeners` (lines 309-317) synchronously invokes every
registered listener, in insertion order, with the given status string.
`init` (lines 51-79, success path) assigns `connectionStatus =
'connecting'` (line 57) WITHOUT notifying the listeners, then assigns
`'connected'` and notifies `'connected'` (lines 69-70). -/

namespace Listeners

open Reconn (ConnStatus connStatusStr)

/-- Listener state: the stored status, the registered listeners in
registration order (modelled by numeric ids), and the log of listener
invocations `(listener, status string)` in invocation order. -/
structure ListState where
  connectionStatus : ConnStatus := .disconnected
  listeners : List Nat := []
  invocations : List (Nat × String) := []
deriving DecidableEq, Repr

/-- Source `addConnectionListener` (lines 295-303): insert into the Set (a
no-op for an already-present listener), then immediately invoke the
listener with the current stored status. -/
def addConnectionListener (l : Nat) (s : ListState) : ListState :=
  { s with
    listeners := if s.listeners.contains l then s.listeners else s.listeners ++ [l],
    invocations := s.invocations ++ [(l, connStatusStr s.connectionStatus)] }

/-- Source `notifyConnectionListeners` (lines 309-317): synchronously invoke
every registered listener, in registration order, with the given status
string. -/
def notifyConnectionListeners (st : String) (s : ListState) : ListState :=
  { s with invocations := s.invocations ++ s.listeners.map (fun l => (l, st)) }

/-- Source `removeConnectionListener` (lines 305-307). -/
def removeConnectionListener (l : Nat) (s : ListState) : ListState :=
  { s with listeners := s.listeners.filter (fun x => !(x = l)) }

/-- One primitive effect of the manager on the listener state: a bare
assignment to `connectionStatus`, or a `notifyConnectionListeners`
call. -/
inductive MgrEvent where
  | statusChange (c : ConnStatus)
  | broadcast (st : String)
deriving DecidableEq, Repr

def execEvent (s : ListState) : MgrEvent → ListState
  | .statusChange c => { s with connectionStatus := c }
  | .broadcast st => notifyConnectionListeners st s

/-- The effects of `init()` on the listener state, in source order
(lines 57-70): set `connecting` (no notification), set `connected`,
notify `connected`. -/
def initEvents : List MgrEvent :=
  [.statusChange .connecting, .statusChange .connected, .broadcast ("connected")]

def runEvents (s : ListState) (evs : List MgrEvent) : ListState :=
  evs.foldl execEvent s

end Listeners

/-! ## Fetch Coordinator — `useRequestSync.ts`, `fetchRequests`

`fetchRequests` (useRequestSync.ts lines 58-216).  Guards, in order:

* if `fetchInProgressRef.current` is true, return immediately (lines
  59-62);
* unless `bypassCache`, if `now - lastFetchTimeRef.current < 2000`,
  return immediately (lines 64-69) — note NOTHING is delivered to the
  caller on this path;
* set the in-flight flag and `lastFetchTimeRef` (lines 71-72);
* abort the previous `AbortController`, create a new one (lines 75-85);
* if mounted, clear the error and possibly show loading (lines 87-94);
* unless `bypassCache`, when online and a cached snapshot exists with
  `now - lastUpdateTime < 5000`, deliver the cached snapshot via
  `onUpdate`, reset the flag and return (lines 96-105);
* otherwise issue the network query (lines 110-131) and await it.

Resumption after the await: on `signal.aborted`, return (line 133); on a
query error, `throw fetchError` (lines 135-137); on success, if mounted,
write the cache, deliver via `onUpdate`, set `lastUpdateTime := now`,
stop loading and reset the retry counter (lines 139-169).

The `catch` block (lines 170-212): an `AbortError` returns silently
(lines 172-180).  For every other error, the very next statement reads
`signal` (line 177) — but `signal` is declared with `const` INSIDE the
`try` block (line 85) and is not in scope in the `catch` handler, so
under JavaScript block scoping evaluating it throws a `ReferenceError`.
The rest of the handler — `setError`, the stale-cache fallback, and the
retry scheduling of lines 184-211 — is therefore unreachable for
non-abort errors; the invocation rejects with the `ReferenceError`.

The `finally` block (lines 213-215) always clears the in-flight flag, on
every path, including the uncaught `ReferenceError` one.

The model splits the function at its suspension point: `fetchPhase1` is
the synchronous prefix up to (and including) issuing the network query,
`fetchPhase2` the resumption with the network's result.  Payloads are
modelled opaquely as `List Nat` (the field-by-field reshaping of lines
143-159 does not affect any claim). -/

namespace FetchSync

/-- The mutable state visible to `fetchRequests`: the refs
(`fetchInProgressRef`, `lastFetchTimeRef`, `retryCountRef`,
`mountedRef`), the React state (`error`, `isLoading`, `lastUpdateTime`,
`isOnline`), the cache entry for `requests:all`, plus instrumentation:
the list of `onUpdate` deliveries, the number of network queries issued,
the number of `AbortController.abort()` calls, and the delay of a
scheduled retry timer, if any (never written — the scheduling code is
unreachable, see above). -/
structure FetchState where
  fetchInProgress : Bool := false
  lastFetchTime : Nat := 0
  retryCount : Nat := 0
  mounted : Bool := true
  hasError : Bool := false
  isLoading : Bool := true
  lastUpdateTime : Nat := 0
  isOnline : Bool := true
  cache : Option (List Nat) := none
  delivered : List (List Nat) := []
  networkCalls : Nat := 0
  abortsIssued : Nat := 0
  pendingRetryDelay : Option Nat := none
deriving DecidableEq, Repr

/-- Result of the synchronous prefix of one invocation. -/
inductive Phase1Result where
  | skippedInFlight
  | skippedRateLimited
  | cacheHit
  | issuedNetwork
deriving DecidableEq, Repr

/-- Outcome of a completed invocation. -/
inductive FetchOutcome where
  | skippedInFlight
  | skippedRateLimited
  | cacheHit
  | success
  | aborted
  | uncaughtError
deriving DecidableEq, Repr

/-- What the awaited network query produced: a record collection, a
query error (rejected by the remote service), an exception named
`AbortError`, or a normal completion observed with `signal.aborted`. -/
inductive NetworkResult where
  | ok (data : List Nat)
  | queryError
  | abortException
  | abortedSignal
deriving DecidableEq, Repr

/-- The synchronous prefix of `fetchRequests` (lines 58-131): the
in-flight guard, the rate-limit guard, flag and timestamp updates, abort
of the previous controller, error/loading resets, the cache-first branch,
and the issuing of the network query. -/
def fetchPhase1 (bypassCache : Bool) (now : Nat) (s : FetchState) :
    FetchState × Phase1Result :=
  if s.fetchInProgress then (s, .skippedInFlight)
  else if !bypassCache && now - s.lastFetchTime < 2000 then
    (s, .skippedRateLimited)
  else
    let s := { s with fetchInProgress := true, lastFetchTime := now }
    let s := { s with abortsIssued := s.abortsIssued + 1 }
    let s :=
      if s.mounted then
        { s with hasError := false,
                 isLoading := if s.isLoading || s.hasError then true else s.isLoading }
      else s
    let useCache :=
      if !bypassCache && s.isOnline then
        match s.cache with
        | some c => if now - s.lastUpdateTime < 5000 then some c else none
        | none => none
      else none
    match useCache with
    | some c =>
      ({ s with delivered := s.delivered ++ [c], fetchInProgress := false },
       .cacheHit)
    | none =>
      ({ s with networkCalls := s.networkCalls + 1 }, .issuedNetwork)

/-- The resumption of `fetchRequests` after the awaited network query
(lines 133-215), including the `catch` and `finally` blocks.  Every
branch ends with the `finally` clearing the in-flight flag.  Note the
non-abort error branch: the `catch` handler's read of the out-of-scope
`signal` raises, so no error state is set and no retry is scheduled. -/
def fetchPhase2 (now : Nat) (res : NetworkResult) (s : FetchState) :
    FetchState × FetchOutcome :=
  match res with
  | .abortedSignal => ({ s with fetchInProgress := false }, .aborted)
  | .abortException => ({ s with fetchInProgress := false }, .aborted)
  | .queryError => ({ s with fetchInProgress := false }, .uncaughtError)
  | .ok data =>
    if s.mounted then
      ({ s with cache := some data,
                delivered := s.delivered ++ [data],
                lastUpdateTime := now,
                isLoading := false,
                retryCount := 0,
                fetchInProgress := false }, .success)
    else
      ({ s with fetchInProgress := false }, .success)

/-- A whole `fetchRequests` invocation: the synchronous prefix, and — if
it issued a network query — the resumption with that query's result. -/
def fetchRequests (bypassCache : Bool) (now : Nat) (res : NetworkResult)
    (s : FetchState) : FetchState × FetchOutcome :=
  match fetchPhase1 bypassCache now s with
  | (s1, .skippedInFlight) => (s1, .skippedInFlight)
  | (s1, .skippedRateLimited) => (s1, .skippedRateLimited)
  | (s1, .cacheHit) => (s1, .cacheHit)
  | (s1, .issuedNetwork) => fetchPhase2 now res s1

/-- Two concurrent invocations for the same query key, interleaved on the
single-threaded event loop: the first (with `bypassCache = true`) runs up
to its network await; the second runs to completion while the first is
suspended; the first then resumes with the network result.  Returns the
final state and the outcomes of the first and second invocations. -/
def runTwoConcurrent (n1 n2 : Nat) (b2 : Bool) (res2 : NetworkResult)
    (data : List Nat) (s : FetchState) :
    FetchState × FetchOutcome × FetchOutcome :=
  let p1 := fetchPhase1 true n1 s
  let p2 := fetchRequests b2 n2 res2 p1.1
  let p3 := fetchPhase2 n1 (.ok data) p2.1
  (p3.1, p3.2, p2.2)

/-- A concrete state for the rate-limit claims: the previous fetch
happened at t = 1000 ms and a cached snapshot `[1]` exists. -/
def rateLimitedState : FetchState :=
  { lastFetchTime := 1000, cache := some [1] }

end FetchSync

/-! ## Low-level retrying fetch — `supabase.ts`, `RETRY_OPTIONS`

`RETRY_OPTIONS` (supabase.ts lines 14-27): `numOfAttempts: 3`,
`startingDelay: 1000`, `timeMultiple: 2`, `maxDelay: 10000`, and a
`retry` predicate returning true only for network errors (message
containing `Failed to fetch`, `NetworkError` or `network`) or 5xx server
errors.  `fetchWithRetry` (lines 30-37) passes these to the
`exponential-backoff` library's `backOff`.

The `backOff` loop is modelled from that library's documented semantics
(the library is an external dependency, not part of this repository):
`numOfAttempts` is the TOTAL number of attempts including the first; the
delay before the i-th retry (i = 1, 2, ...) is
`startingDelay * timeMultiple^(i-1)`, capped at `maxDelay`; a failed
attempt is retried only while attempts remain and `retry(error)` returns
true. -/

namespace SupaRetry

/-- A fetch error as inspected by the `retry` predicate: its message and
its HTTP status, when present. -/
structure SupaError where
  message : String
  status : Option Nat
deriving DecidableEq, Repr

/-- Substring test on character lists: does `pat` occur contiguously? -/
def containsSub (pat : List Char) : List Char → Bool
  | [] => pat.isEmpty
  | c :: rest => pat.isPrefixOf (c :: rest) || containsSub pat rest

/-- JavaScript's `String.prototype.includes`. -/
def strIncludes (s pat : String) : Bool :=
  containsSub pat.toList s.toList

/-- The network-error test of the `retry` predicate (lines 21-23). -/
def isNetworkError (e : SupaError) : Bool :=
  strIncludes e.message ("Failed to fetch") ||
    strIncludes e.message ("NetworkError") ||
    strIncludes e.message ("network")

/-- The 5xx test of the `retry` predicate (line 24): with no status
present, the JavaScript comparison `undefined >= 500` is false. -/
def isServerError (e : SupaError) : Bool :=
  match e.status with
  | some st => decide (500 ≤ st) && decide (st < 600)
  | none => false

/-- The `retry` predicate of `RETRY_OPTIONS` (lines 19-26). -/
def retryPredicate (e : SupaError) : Bool :=
  isNetworkError e || isServerError e

/-- Source `RETRY_OPTIONS.numOfAttempts` (line 15). -/
def numOfAttempts : Nat := 3

/-- Source `RETRY_OPTIONS.startingDelay` (line 16). -/
def startingDelay : Nat := 1000

/-- Source `RETRY_OPTIONS.timeMultiple` (line 17). -/
def timeMultiple : Nat := 2

/-- Source `RETRY_OPTIONS.maxDelay` (line 18). -/
def maxDelay : Nat := 10000

/-- One `backOff` run.  `results i` is what the i-th attempt (1-based)
produces: `none` for success, `some e` for failure with error `e`.  The
first component says whether the run succeeded; the second lists the
delays slept before each retry. -/
def backOffGo (results : Nat → Option SupaError) :
    Nat → Nat → Bool × List Nat
  | _, 0 => (false, [])
  | i, remaining + 1 =>
    match results i with
    | none => (true, [])
    | some e =>
      if remaining ≠ 0 && retryPredicate e then
        let d := min (startingDelay * timeMultiple ^ (i - 1)) maxDelay
        let r := backOffGo results (i + 1) remaining
        (r.1, d :: r.2)
      else (false, [])

/-- Source call `backOff(() => fetch(url, options), RETRY_OPTIONS)`
(supabase.ts line 32). -/
def backOff (results : Nat → Option SupaError) : Bool × List Nat :=
  backOffGo results 1 numOfAttempts

/-- A persistent transient failure: every attempt fails with a network
error. -/
def networkErr : SupaError := { message := "network down", status := none }

/-- A persistent non-transient failure, e.g. a malformed query rejected
with HTTP 400. -/
def malformedErr : SupaError := { message := "bad query", status := some 400 }

end SupaRetry

/-! ## Optimistic Mutation Layer

Two variants exist in the source:

* `UltraFastQueueView.handleLockRequest` (UltraFastQueueView, lines
  305-336): optimistically toggles the lock of the target request and
  clears the lock of every other request; if the remote lock operation
  returns false or throws, it does NOT restore a captured prior value —
  it calls `forceRefresh()` (an asynchronous refetch) and shows an error
  toast, leaving the optimistically mutated collection in place.
  (`handlePlayRequest`, lines 339-366, has the same shape.)

* the queue reset of `QueueView` (App.tsx, lines 635-667):
  optimistically sets the `optimisticallyClearedQueue` flag, which makes
  the displayed collection empty; on failure it resets the flag (the
  underlying `requests` array was never mutated) and shows an error
  toast. -/

namespace Optimistic

/-- A song request as relevant to the lock/play/reset mutations. -/
structure QReq where
  id : Nat
  isLocked : Bool
  isPlayed : Bool
  votes : Nat
  createdAt : Nat
deriving DecidableEq, Repr

/-- State of `UltraFastQueueView`: the record collection, the per-id
action flags, the toast log `(isError, message)`, the number of
`forceRefresh()` calls, and the delays of scheduled refreshes. -/
structure UFQState where
  requests : List QReq := []
  actionStates : List Nat := []
  toasts : List (Bool × String) := []
  forceRefreshCalls : Nat := 0
  scheduledRefreshDelays : List Nat := []
deriving DecidableEq, Repr

/-- The optimistic update of `handleLockRequest` (lines 312-316): toggle
`isLocked` of the target request, clear `isLocked` of every other
request. -/
def optimisticLockToggle (i : Nat) (reqs : List QReq) : List QReq :=
  reqs.map (fun r =>
    if r.id = i then { r with isLocked := !r.isLocked }
    else { r with isLocked := false })

/-- Source `handleLockRequest` (lines 305-336).  `success` is what the remote
`onLockRequest` resolves to; the thrown-exception path (lines 329-332)
behaves like the `false` path: `forceRefresh()` plus an error toast.  No
captured prior value exists, and no restore happens on failure. -/
def handleLockRequest (i : Nat) (success : Bool) (s : UFQState) : UFQState :=
  if s.actionStates.contains i then s
  else
    let s := { s with actionStates := s.actionStates ++ [i] }
    let s := { s with requests := optimisticLockToggle i s.requests }
    let s :=
      if success then
        { s with toasts := s.toasts ++ [(false, "Request locked!")],
                 scheduledRefreshDelays := s.scheduledRefreshDelays ++ [100] }
      else
        { s with forceRefreshCalls := s.forceRefreshCalls + 1,
                 toasts := s.toasts ++ [(true, "Failed to lock request")] }
    { s with actionStates := s.actionStates.filter (fun x => !(x = i)) }

/-- The queue-sort comparator of the queue views (part_000 lines
369-381): locked requests first, then votes descending, then creation
time ascending. -/
def queueBefore (a b : QReq) : Bool :=
  if a.isLocked && !b.isLocked then true
  else if !a.isLocked && b.isLocked then false
  else if !(a.votes = b.votes) then decide (b.votes < a.votes)
  else decide (a.createdAt ≤ b.createdAt)

/-- Insertion sort with the queue comparator (a deterministic stand-in
for the stable `Array.prototype.sort`). -/
def insertSorted (r : QReq) : List QReq → List QReq
  | [] => [r]
  | x :: xs => if queueBefore r x then r :: x :: xs else x :: insertSorted r xs

def sortQueue (reqs : List QReq) : List QReq :=
  reqs.foldr insertSorted []

/-- State of the `QueueView` holding the optimistic clear flag (App.tsx
lines 625-629). -/
structure QVState where
  requests : List QReq := []
  optimisticallyClearedQueue : Bool := false
  isResetting : Bool := false
  resetStartTime : Option Nat := none
  toasts : List (Bool × String) := []
deriving DecidableEq, Repr

/-- Source `displayRequests` (App.tsx lines 680-686): the empty list while the
optimistic clear flag is set, the sorted collection otherwise. -/
def displayRequests (s : QVState) : List QReq :=
  if s.optimisticallyClearedQueue then [] else sortQueue s.requests

/-- Source `handleResetQueue` (App.tsx lines 635-667) run to completion:
record the start time, set the optimistic clear flag, set `isResetting`;
if the remote reset fails, reset the flag and show an error toast; the
`finally` block clears `isResetting` and the start time. -/
def handleResetQueue (success : Bool) (now : Nat) (s : QVState) : QVState :=
  let s := { s with resetStartTime := some now }
  let s := { s with optimisticallyClearedQueue := true }
  let s := { s with isResetting := true }
  let s :=
    if success then s
    else
      { s with optimisticallyClearedQueue := false,
               toasts := s.toasts ++
                 [(true, "Failed to clear queue. Please try again.")] }
  { s with isResetting := false, resetStartTime := none }

/-- A concrete two-request collection: request 1 unlocked, request 2
locked. -/
def sampleReqs : List QReq :=
  [{ id := 1, isLocked := false, isPlayed := false, votes := 0, createdAt := 0 },
   { id := 2, isLocked := true, isPlayed := false, votes := 0, createdAt := 1 }]

/-- The `UFQState` holding `sampleReqs`. -/
def sampleUFQ : UFQState := { requests := sampleReqs }

/-- The `QVState` holding `sampleReqs` with no reset in progress. -/
def sampleQV : QVState :=
  { requests := sampleReqs }

end Optimistic

/-! ## Supporting lemmas -/

namespace Coalescer

theorem lastD_nil (dflt : α) : lastD dflt ([] : List α) = dflt := rfl

theorem lastD_cons (dflt x : α) (l : List α) :
    lastD dflt (x :: l) = lastD x l := by
  simp [lastD]

theorem coalesce_tight (d : Nat) :
    ∀ (events : List (Nat × α)) (t0 : Nat) (q : α),
      tight d t0 events = true →
      coalesceEvents d events (some (t0 + d, q)) =
        [(lastD t0 (events.map Prod.fst) + d, lastD q (events.map Prod.snd))]
  | [], t0, q, _ => by
    simp [coalesceEvents, lastD_nil]
  | (t2, p2) :: rest, t0, q, h => by
    simp only [tight, Bool.and_eq_true, decide_eq_true_eq] at h
    obtain ⟨⟨hle, hlt⟩, htight⟩ := h
    have hnot : ¬ (t0 + d ≤ t2) := by omega
    simp only [coalesceEvents, hnot, if_false]
    rw [coalesce_tight d rest t2 p2 htight]
    simp [lastD_cons]

end Coalescer

namespace Teardown

theorem findTimeout_deleteKey (l : List (Nat × Nat)) (cid : Nat) :
    findTimeout (deleteKey l cid) cid = none := by
  induction l with
  | nil => rfl
  | cons e rest ih =>
    by_cases h : e.1 = cid
    · simpa [deleteKey, h] using ih
    · simpa [deleteKey, findTimeout, h] using ih

end Teardown

namespace FetchSync

/-- The in-flight guard (lines 59-62): with the flag set, the invocation
returns immediately, leaving the state untouched. -/
theorem inFlight_skip (b : Bool) (n : Nat) (res : NetworkResult)
    (s : FetchState) (h : s.fetchInProgress = true) :
    fetchRequests b n res s = (s, .skippedInFlight) := by
  simp [fetchRequests, fetchPhase1, h]

/-- The rate-limit guard (lines 64-69): without `bypassCache`, a call
less than 2000 ms after the previous recorded fetch returns immediately,
leaving the state untouched — in particular nothing is delivered. -/
theorem rate_skip (n : Nat) (res : NetworkResult) (s : FetchState)
    (h1 : s.fetchInProgress = false) (h2 : n - s.lastFetchTime < 2000) :
    fetchRequests false n res s = (s, .skippedRateLimited) := by
  simp [fetchRequests, fetchPhase1, h1, h2]

/-- Every branch of `fetchPhase2` ends in the `finally` block clearing
the in-flight flag; `lastFetchTimeRef` and the network-call count are
untouched by the resumption. -/
theorem phase2_state (n : Nat) (res : NetworkResult) (s : FetchState) :
    (fetchPhase2 n res s).1.fetchInProgress = false ∧
    (fetchPhase2 n res s).1.lastFetchTime = s.lastFetchTime ∧
    (fetchPhase2 n res s).1.networkCalls = s.networkCalls := by
  cases res with
  | ok data => by_cases hm : s.mounted = true <;> simp [fetchPhase2, hm]
  | queryError => simp [fetchPhase2]
  | abortException => simp [fetchPhase2]
  | abortedSignal => simp [fetchPhase2]

/-- Case analysis of the synchronous prefix when no fetch is in flight:
it is rate-limit-skipped (state untouched, and only without bypass
within 2000 ms), or a cache hit (flag cleared, call time recorded, no
network call), or it issues exactly one network query. -/
theorem phase1_cases (b : Bool) (n : Nat) (s : FetchState)
    (h : s.fetchInProgress = false) :
    ((fetchPhase1 b n s).2 = .skippedRateLimited ∧ (fetchPhase1 b n s).1 = s ∧
      b = false ∧ n - s.lastFetchTime < 2000) ∨
    ((fetchPhase1 b n s).2 = .cacheHit ∧
      (fetchPhase1 b n s).1.fetchInProgress = false ∧
      (fetchPhase1 b n s).1.lastFetchTime = n ∧
      (fetchPhase1 b n s).1.networkCalls = s.networkCalls) ∨
    ((fetchPhase1 b n s).2 = .issuedNetwork ∧
      (fetchPhase1 b n s).1.lastFetchTime = n ∧
      (fetchPhase1 b n s).1.networkCalls = s.networkCalls + 1) := by
  by_cases hc : (b = false ∧ n - s.lastFetchTime < 2000)
  · left
    refine ⟨?_, ?_, hc.1, hc.2⟩ <;> simp [fetchPhase1, h, hc]
  · right
    have hcb : (!b && decide (n - s.lastFetchTime < 2000)) = false := by
      cases b with
      | true => simp
      | false =>
        have hr : ¬ (n - s.lastFetchTime < 2000) := fun hr => hc ⟨rfl, hr⟩
        simp [hr]
    simp only [fetchPhase1, h, Bool.false_eq_true, if_false, hcb]
    by_cases hm : s.mounted = true <;>
      simp only [hm, if_true, Bool.false_eq_true, if_false] <;>
      split <;> simp_all

/-- The `finally` block (lines 213-215): an invocation that passed the
in-flight guard always ends with the flag cleared. -/
theorem flag_false_after (b : Bool) (n : Nat) (res : NetworkResult)
    (s : FetchState) (h : s.fetchInProgress = false) :
    (fetchRequests b n res s).1.fetchInProgress = false := by
  rcases hp : fetchPhase1 b n s with ⟨s1, r1⟩
  have hc := phase1_cases b n s h
  rw [hp] at hc
  simp only [fetchRequests, hp]
  cases r1 with
  | skippedInFlight =>
    rcases hc with ⟨h1, _⟩ | ⟨h1, _⟩ | ⟨h1, _⟩ <;> simp at h1
  | skippedRateLimited =>
    rcases hc with ⟨_, h2, _⟩ | ⟨h1, _⟩ | ⟨h1, _⟩
    · have h2s : s1 = s := h2
      rw [h2s]
      exact h
    · simp at h1
    · simp at h1
  | cacheHit =>
    rcases hc with ⟨h1, _⟩ | ⟨_, h2, _⟩ | ⟨h1, _⟩
    · simp at h1
    · exact h2
    · simp at h1
  | issuedNetwork =>
    exact (phase2_state n res s1).1

/-- State after an invocation that passed both guards: `lastFetchTimeRef`
records the call time, the flag ends cleared, and at most one network
query was issued. -/
theorem proceed_state (n : Nat) (res : NetworkResult) (s : FetchState)
    (h1 : s.fetchInProgress = false) (h2 : ¬ (n - s.lastFetchTime < 2000)) :
    (fetchRequests false n res s).1.lastFetchTime = n ∧
    (fetchRequests false n res s).1.fetchInProgress = false ∧
    (fetchRequests false n res s).1.networkCalls ≤ s.networkCalls + 1 := by
  rcases hp : fetchPhase1 false n s with ⟨s1, r1⟩
  have hc := phase1_cases false n s h1
  rw [hp] at hc
  simp only [fetchRequests, hp]
  cases r1 with
  | skippedInFlight =>
    rcases hc with ⟨ha, _⟩ | ⟨ha, _⟩ | ⟨ha, _⟩ <;> simp at ha
  | skippedRateLimited =>
    rcases hc with ⟨_, _, _, hr⟩ | ⟨ha, _⟩ | ⟨ha, _⟩
    · exact absurd hr h2
    · simp at ha
    · simp at ha
  | cacheHit =>
    rcases hc with ⟨ha, _⟩ | ⟨_, hflag, hlt, hnet⟩ | ⟨ha, _⟩
    · simp at ha
    · have hn : s1.networkCalls = s.networkCalls := hnet
      refine ⟨hlt, hflag, ?_⟩
      show s1.networkCalls ≤ s.networkCalls + 1
      omega
    · simp at ha
  | issuedNetwork =>
    rcases hc with ⟨ha, _⟩ | ⟨ha, _⟩ | ⟨_, hlt, hnet⟩
    · simp at ha
    · simp at ha
    · obtain ⟨pf, pl, pn⟩ := phase2_state n res s1
      have hl : s1.lastFetchTime = n := hlt
      have hn : s1.networkCalls = s.networkCalls + 1 := hnet
      refine ⟨?_, pf, ?_⟩
      · show (fetchPhase2 n res s1).1.lastFetchTime = n
        rw [pl, hl]
      · show (fetchPhase2 n res s1).1.networkCalls ≤ s.networkCalls + 1
        rw [pn, hn]

end FetchSync

/-! ### Claim C1 -/

/-- C1: for every subscription created by
`EnhancedRealtimeManager.createSubscription` and every burst of N ≥ 1
change events with gaps strictly shorter than the priority delay
(100ms/250ms/500ms for high/normal/low), exactly one downstream callback
fires, carrying the payload of the last event of the burst, at the last
event's arrival time plus the priority delay.  Each new event cancels the
previously pending timer, and the pending timer per subscription id is an
`Option` — at most one. -/
theorem coalescer_burst_single_callback {α : Type} (p : Coalescer.Priority)
    (t1 : Nat) (p1 : α) (rest : List (Nat × α))
    (h : Coalescer.tight (Coalescer.priorityDebounceDelays p) t1 rest = true) :
    Coalescer.coalesceEvents (Coalescer.priorityDebounceDelays p)
        ((t1, p1) :: rest) none =
      [(Coalescer.lastD t1 (rest.map Prod.fst) + Coalescer.priorityDebounceDelays p,
        Coalescer.lastD p1 (rest.map Prod.snd))] := by
  simp only [Coalescer.coalesceEvents]
  exact Coalescer.coalesce_tight _ rest t1 p1 h

/-- Witness for C1, the spec's scenario 7: three events on a `high`
priority subscription at t = 0, 30, 60 ms produce exactly one callback at
t = 160 ms carrying the payload of the t = 60 event. -/
theorem coalescer_burst_single_callback_witness :
    Coalescer.tight (Coalescer.priorityDebounceDelays .high) 0
        [(30, 2), (60, 3)] = true ∧
    Coalescer.coalesceEvents (Coalescer.priorityDebounceDelays .high)
        [(0, 1), (30, 2), (60, 3)] none = [(160, 3)] :=
  ⟨by decide,
   (coalescer_burst_single_callback .high 0 1 [(30, 2), (60, 3)]
      (by decide)).trans (by decide)⟩

/-! ### Claim C2 -/

/-- C2 counterexample: after the 5th reconnection attempt fails, the
stored connection status does NOT become `error` — it remains
`disconnected` (the `connectionStatus` field's type has no `error` value
at all); only the string `"error"` is passed to the listeners.  The claim
"the connection status becomes `error`" is therefore false on the run
where all five attempts fail. -/
theorem reconn_status_never_error_counterexample :
    Reconn.connStatusStr Reconn.exhaustedRun.connectionStatus = "disconnected" ∧
    Reconn.exhaustedRun.broadcasts.getLast? = some ("error") := by
  decide

/-- C2 (amended): the delay before reconnection attempt n (0-based)
equals `1000 * 2^n` ms for n = 0..4; after the 5th attempt fails the
listeners are notified with `error` while the stored status stays
`disconnected`, and no further automatic reconnection attempt is
scheduled — neither by another `attemptReconnection` call nor by a
network-online event (the counter is never reset by these); on any
successful reconnection the attempt counter resets to 0, the status
becomes `connected`, and listeners are notified `connected`. -/
theorem reconn_backoff_and_exhaustion :
    (Reconn.exhaustedRun.delaysScheduled =
      (List.range 5).map (fun n => 1000 * 2 ^ n)) ∧
    Reconn.exhaustedRun.reconnectAttempts = 5 ∧
    Reconn.exhaustedRun.connectionStatus = .disconnected ∧
    Reconn.exhaustedRun.broadcasts.getLast? = some ("error") ∧
    ((Reconn.attemptReconnection Reconn.exhaustedRun).pendingReconnectDelay = none ∧
     (Reconn.attemptReconnection Reconn.exhaustedRun).delaysScheduled =
       Reconn.exhaustedRun.delaysScheduled) ∧
    ((Reconn.handleNetworkOnline Reconn.exhaustedRun).pendingReconnectDelay = none ∧
     (Reconn.handleNetworkOnline Reconn.exhaustedRun).delaysScheduled =
       Reconn.exhaustedRun.delaysScheduled) ∧
    (∀ s : Reconn.ReconnState,
      (Reconn.reconnectTimerFires true s).reconnectAttempts = 0 ∧
      (Reconn.reconnectTimerFires true s).connectionStatus = .connected ∧
      (Reconn.reconnectTimerFires true s).broadcasts =
        s.broadcasts ++ ["connected"]) := by
  refine ⟨by decide, by decide, by decide, by decide, ⟨by decide, by decide⟩,
    ⟨by decide, by decide⟩, ?_⟩
  intro s
  simp [Reconn.reconnectTimerFires]

/-! ### Claim C3 -/

/-- C3 counterexample: in `handleLockRequest`, a failing remote lock does
NOT restore a captured prior value — after the failure path completes,
the local record collection is still the optimistically mutated one
(request 1 locked, request 2 unlocked), which differs bit-for-bit from
the pre-apply collection (request 1 unlocked, request 2 locked); the code
merely triggers a forced refetch.  So "the captured prior value is
immediately restored, so the local record-collection state after rollback
is bit-for-bit equal to the state immediately before the optimistic
apply" is false at this input. -/
theorem optimistic_lock_no_rollback_counterexample :
    (Optimistic.handleLockRequest 1 false Optimistic.sampleUFQ).requests ≠
      Optimistic.sampleUFQ.requests ∧
    (Optimistic.handleLockRequest 1 false Optimistic.sampleUFQ).requests =
      [{ id := 1, isLocked := true, isPlayed := false, votes := 0,
         createdAt := 0 },
       { id := 2, isLocked := false, isPlayed := false, votes := 0,
         createdAt := 1 }] ∧
    (Optimistic.handleLockRequest 1 false Optimistic.sampleUFQ).forceRefreshCalls
      = 1 := by
  refine ⟨by decide, by decide, by decide⟩

/-- C3 (amended): the two failure paths differ.  In the `QueueView` queue
reset, the rollback is real: when the remote reset fails, the optimistic
clear flag is restored, so the record collection, the displayed
collection, and the reset bookkeeping after rollback are bit-for-bit
equal to the state immediately before the optimistic apply, and an error
toast is surfaced.  In `UltraFastQueueView.handleLockRequest` no prior
value is captured: on failure the optimistically mutated collection stays
in place and a forced refetch plus an error toast are issued instead. -/
theorem optimistic_rollback :
    (∀ (now : Nat) (s : Optimistic.QVState),
      s.optimisticallyClearedQueue = false → s.isResetting = false →
      s.resetStartTime = none →
      (Optimistic.handleResetQueue false now s).requests = s.requests ∧
      Optimistic.displayRequests (Optimistic.handleResetQueue false now s) =
        Optimistic.displayRequests s ∧
      Optimistic.handleResetQueue false now s =
        { s with toasts := s.toasts ++
            [(true, "Failed to clear queue. Please try again.")] }) ∧
    (∀ (i : Nat) (s : Optimistic.UFQState),
      s.actionStates.contains i = false →
      (Optimistic.handleLockRequest i false s).requests =
        Optimistic.optimisticLockToggle i s.requests ∧
      (Optimistic.handleLockRequest i false s).forceRefreshCalls =
        s.forceRefreshCalls + 1 ∧
      (Optimistic.handleLockRequest i false s).toasts =
        s.toasts ++ [(true, "Failed to lock request")]) := by
  constructor
  · intro now s h1 h2 h3
    refine ⟨rfl, ?_, ?_⟩
    · simp [Optimistic.displayRequests, Optimistic.handleResetQueue, h1]
    · cases s
      simp_all [Optimistic.handleResetQueue]
  · intro i s h
    have h2 : i ∉ s.actionStates := by simpa using h
    refine ⟨?_, ?_, ?_⟩ <;> simp [Optimistic.handleLockRequest, h2]
/-- Witness for C3 (amended): the reset rollback at a concrete state with
two requests, and the lock failure path at `sampleUFQ`. -/
theorem optimistic_rollback_witness :
    Optimistic.sampleQV.optimisticallyClearedQueue = false ∧
    Optimistic.displayRequests
        (Optimistic.handleResetQueue false 42 Optimistic.sampleQV) =
      Optimistic.displayRequests Optimistic.sampleQV ∧
    Optimistic.sampleUFQ.actionStates.contains 1 = false ∧
    (Optimistic.handleLockRequest 1 false Optimistic.sampleUFQ).toasts =
      Optimistic.sampleUFQ.toasts ++ [(true, "Failed to lock request")] :=
  ⟨rfl,
   (optimistic_rollback.1 42 Optimistic.sampleQV rfl rfl rfl).2.1,
   by decide,
   (optimistic_rollback.2 1 Optimistic.sampleUFQ (by decide)).2.2⟩

/-! ### Claim C4 -/

/-- C4: if a fetch for the query key is already in flight, any further
`fetchRequests` call returns immediately with no network I/O and no state
change; and when two concurrent invocations interleave on the event loop,
exactly one network query is issued, the second invocation is skipped,
and the in-flight invocation delivers the resulting collection once
through the shared `onUpdate` path. -/
theorem fetch_mutual_exclusion :
    (∀ (b : Bool) (n : Nat) (res : FetchSync.NetworkResult)
        (s : FetchSync.FetchState),
      s.fetchInProgress = true →
      FetchSync.fetchRequests b n res s = (s, .skippedInFlight)) ∧
    (∀ (n1 n2 : Nat) (b2 : Bool) (res2 : FetchSync.NetworkResult)
        (data : List Nat) (s : FetchSync.FetchState),
      s.fetchInProgress = false → s.mounted = true →
      (FetchSync.runTwoConcurrent n1 n2 b2 res2 data s).1.networkCalls =
          s.networkCalls + 1 ∧
      (FetchSync.runTwoConcurrent n1 n2 b2 res2 data s).2.2 =
          .skippedInFlight ∧
      (FetchSync.runTwoConcurrent n1 n2 b2 res2 data s).1.delivered =
          s.delivered ++ [data] ∧
      (FetchSync.runTwoConcurrent n1 n2 b2 res2 data s).2.1 = .success) := by
  constructor
  · exact fun b n res s h => FetchSync.inFlight_skip b n res s h
  · intro n1 n2 b2 res2 data s h1 h2
    simp [FetchSync.runTwoConcurrent, FetchSync.fetchRequests,
      FetchSync.fetchPhase1, FetchSync.fetchPhase2, h1, h2]

/-- Witness for C4: from the initial state, with the second call arriving
while the first awaits the network, the interleaving issues exactly one
network query, skips the second call, and delivers the collection `[5]`
once. -/
theorem fetch_mutual_exclusion_witness :
    ({} : FetchSync.FetchState).fetchInProgress = false ∧
    ({} : FetchSync.FetchState).mounted = true ∧
    (FetchSync.runTwoConcurrent 0 100 false (.ok [7]) [5] {}).1.networkCalls =
        ({} : FetchSync.FetchState).networkCalls + 1 ∧
    (FetchSync.runTwoConcurrent 0 100 false (.ok [7]) [5] {}).2.2 =
        .skippedInFlight ∧
    (FetchSync.runTwoConcurrent 0 100 false (.ok [7]) [5] {}).1.delivered =
        ({} : FetchSync.FetchState).delivered ++ [[5]] ∧
    (FetchSync.runTwoConcurrent 0 100 false (.ok [7]) [5] {}).2.1 = .success :=
  ⟨rfl, rfl,
   (fetch_mutual_exclusion.2 0 100 false (.ok [7]) [5] {} rfl rfl).1,
   (fetch_mutual_exclusion.2 0 100 false (.ok [7]) [5] {} rfl rfl).2.1,
   (fetch_mutual_exclusion.2 0 100 false (.ok [7]) [5] {} rfl rfl).2.2.1,
   (fetch_mutual_exclusion.2 0 100 false (.ok [7]) [5] {} rfl rfl).2.2.2⟩

/-! ### Claim C5 -/

/-- A concrete state for the rate-limit claims: the previous fetch
false at this input. -/
theorem fetch_rate_limit_no_snapshot_counterexample :
    FetchSync.fetchRequests false 2000 (.ok [9]) FetchSync.rateLimitedState =
      (FetchSync.rateLimitedState, .skippedRateLimited) ∧
    (FetchSync.fetchRequests false 2000 (.ok [9])
        FetchSync.rateLimitedState).1.delivered = [] ∧
    (FetchSync.fetchRequests false 2000 (.ok [9])
        FetchSync.rateLimitedState).1.networkCalls = 0 ∧
    FetchSync.rateLimitedState.cache = some [1] := by
  refine ⟨?_, ?_, ?_, rfl⟩ <;> decide

/-- C5 (amended): without `bypassCache`, a fetch call made less than
2000 ms after the previous recorded fetch issues no network call and
returns immediately with the state untouched — the caller receives
nothing (neither an error nor the cached snapshot; it simply keeps its
current data).  Two calls within 2000 ms of each other issue at most one
network call: after a first call that passes the guards, a second
non-bypass call within 2000 ms is rate-limit-skipped. -/
theorem fetch_rate_limit :
    (∀ (n : Nat) (res : FetchSync.NetworkResult) (s : FetchSync.FetchState),
      s.fetchInProgress = false → n - s.lastFetchTime < 2000 →
      FetchSync.fetchRequests false n res s = (s, .skippedRateLimited)) ∧
    (∀ (n1 n2 : Nat) (res1 res2 : FetchSync.NetworkResult)
        (s : FetchSync.FetchState),
      s.fetchInProgress = false → ¬ (n1 - s.lastFetchTime < 2000) →
      n2 - n1 < 2000 →
      FetchSync.fetchRequests false n2 res2
          (FetchSync.fetchRequests false n1 res1 s).1 =
        ((FetchSync.fetchRequests false n1 res1 s).1, .skippedRateLimited) ∧
      (FetchSync.fetchRequests false n1 res1 s).1.networkCalls ≤
        s.networkCalls + 1) := by
  constructor
  · exact fun n res s h1 h2 => FetchSync.rate_skip n res s h1 h2
  · intro n1 n2 res1 res2 s h1 h2 h3
    obtain ⟨hl, hf, hn⟩ := FetchSync.proceed_state n1 res1 s h1 h2
    refine ⟨?_, hn⟩
    have h4 : n2 - (FetchSync.fetchRequests false n1 res1 s).1.lastFetchTime < 2000 := by
      rw [hl]; exact h3
    exact FetchSync.rate_skip n2 res2 _ hf h4

/-- Witness for C5 (amended): at the concrete rate-limited state, the
skipped call leaves the state untouched; and a first call at t = 5000
followed by a second at t = 6000 ends with the second skipped. -/
theorem fetch_rate_limit_witness :
    FetchSync.rateLimitedState.fetchInProgress = false ∧
    2000 - FetchSync.rateLimitedState.lastFetchTime < 2000 ∧
    FetchSync.fetchRequests false 2000 (.ok [9]) FetchSync.rateLimitedState =
      (FetchSync.rateLimitedState, .skippedRateLimited) ∧
    FetchSync.fetchRequests false 6000 (.ok [4])
        (FetchSync.fetchRequests false 5000 (.ok [3])
          FetchSync.rateLimitedState).1 =
      ((FetchSync.fetchRequests false 5000 (.ok [3])
          FetchSync.rateLimitedState).1, .skippedRateLimited) :=
  ⟨rfl, by decide,
   fetch_rate_limit.1 2000 (.ok [9]) FetchSync.rateLimitedState rfl (by decide),
   (fetch_rate_limit.2 5000 6000 (.ok [3]) (.ok [4]) FetchSync.rateLimitedState
      rfl (by decide) (by decide)).1⟩

/-! ### Claim C6 -/

/-- C6 counterexample: the retry bound of 3 with delays 2s/4s/8s does not
hold for a subscription — every retry re-creates the channel under a
fresh id whose retry count starts at 0, so in the run where each newly
created channel fails once, the 4th failure still schedules a retry, and
all four scheduled delays equal 2000 ms (never 4s or 8s).  This
contradicts "retries ... at most 3 times, with delays of exactly 2s, 4s,
and 8s ... after the third failure it gives up". -/
theorem chanretry_unbounded_chain_counterexample :
    (ChanRetry.chainRun 4).retryDelaysScheduled = [2000, 2000, 2000, 2000] ∧
    (ChanRetry.chainRun 4).activeChannels = [0, 1, 2, 3, 4] := by
  decide

/-- C6 (amended): the 3-retry bound with delays 2s, 4s, 8s applies per
channel id: when the SAME channel id reports `CHANNEL_ERROR` repeatedly,
the first three failures schedule re-creations after 2000, 4000 and
8000 ms, the fourth failure schedules nothing, every failure notifies the
connection listeners with `error`, and the failed channel remains
registered (it is not closed or removed).  But each scheduled re-creation
opens the subscription under a fresh id with retry count 0, so in a chain
where every newly created channel fails, retries continue beyond 3 with a
constant 2000 ms delay. -/
theorem chanretry_per_id_bound_and_fresh_id_chain :
    ((ChanRetry.sameIdRun 4).retryDelaysScheduled = [2000, 4000, 8000] ∧
     (ChanRetry.sameIdRun 4).broadcasts = ["error", "error", "error", "error"] ∧
     (ChanRetry.sameIdRun 4).activeChannels = [0] ∧
     ChanRetry.lookupRetries (ChanRetry.sameIdRun 4) 0 = 3) ∧
    ((ChanRetry.chainRun 4).retryDelaysScheduled = [2000, 2000, 2000, 2000] ∧
     (ChanRetry.chainRun 4).broadcasts.length = 4) := by
  decide

/-! ### Claim C7 -/

/-- C7 counterexample: the claimed retry schedule — up to 3 retries with
delay `1000 * 2^attempt` for attempt = 0, 1, 2 — holds nowhere.  At the
low-level fetch layer, `numOfAttempts = 3` means three TOTAL attempts, so
a persistent network error is retried exactly twice, with delays 1000 ms
and 2000 ms, and there is never a third retry with delay 4000 ms.  And
`fetchRequests` schedules no retry at all on a query error: its catch
block reads the out-of-scope `signal` binding and raises before reaching
the retry code, so the invocation ends as an uncaught error with the
retry counter and pending-retry slot untouched. -/
theorem retry_schedule_counterexample :
    SupaRetry.backOff (fun _ => some SupaRetry.networkErr) =
      (false, [1000, 2000]) ∧
    (FetchSync.fetchRequests true 0 .queryError {}).2 = .uncaughtError ∧
    (FetchSync.fetchRequests true 0 .queryError {}).1.pendingRetryDelay = none ∧
    (FetchSync.fetchRequests true 0 .queryError {}).1.retryCount = 0 := by
  refine ⟨?_, by decide, by decide, by decide⟩
  decide

/-- C7 (amended): the transient/non-transient retry taxonomy lives in the
low-level fetch wrapper of `supabase.ts`: a persistent transient failure
(network error or HTTP 5xx) is retried up to 2 times — 3 attempts in
total — with delays 1000 ms and 2000 ms, while a non-transient failure
(e.g. a malformed query) fails immediately without any retry.  The
higher-level retry branch of `fetchRequests` (nominally up to 3 retries
with delay `1000 * 2^attempt` for ANY non-abort error) is unreachable:
for every non-abort failure the invocation ends as an uncaught error with
no retry scheduled. -/
theorem retry_taxonomy :
    (SupaRetry.retryPredicate SupaRetry.networkErr = true ∧
     SupaRetry.retryPredicate SupaRetry.malformedErr = false) ∧
    (SupaRetry.backOff (fun _ => some SupaRetry.networkErr) =
      (false, [1000, 2000])) ∧
    (SupaRetry.backOff (fun _ => some SupaRetry.malformedErr) = (false, [])) ∧
    (∀ (n : Nat) (s : FetchSync.FetchState),
      s.fetchInProgress = false →
      (FetchSync.fetchRequests true n .queryError s).2 = .uncaughtError ∧
      (FetchSync.fetchRequests true n .queryError s).1.pendingRetryDelay =
        s.pendingRetryDelay ∧
      (FetchSync.fetchRequests true n .queryError s).1.retryCount =
        s.retryCount) := by
  refine ⟨⟨by decide, ?_⟩, ?_, ?_, ?_⟩
  · decide
  · decide
  · decide
  · intro n s h
    by_cases hm : s.mounted = true <;>
      simp [FetchSync.fetchRequests, FetchSync.fetchPhase1,
        FetchSync.fetchPhase2, h, hm]

/-- Witness for C7 (amended): the unreachable-retry clause applied at the
initial state. -/
theorem retry_taxonomy_witness :
    ({} : FetchSync.FetchState).fetchInProgress = false ∧
    (FetchSync.fetchRequests true 0 .queryError {}).2 = .uncaughtError ∧
    (FetchSync.fetchRequests true 0 .queryError {}).1.pendingRetryDelay =
      ({} : FetchSync.FetchState).pendingRetryDelay ∧
    (FetchSync.fetchRequests true 0 .queryError {}).1.retryCount =
      ({} : FetchSync.FetchState).retryCount :=
  ⟨rfl, (retry_taxonomy.2.2.2 0 {} rfl).1, (retry_taxonomy.2.2.2 0 {} rfl).2.1,
   (retry_taxonomy.2.2.2 0 {} rfl).2.2⟩

/-! ### Claim C8 -/

/-- C8 counterexample: teardown does not silence every timer.  In the
concrete state with a pending `CHANNEL_ERROR` re-creation timer,
`destroy()` cannot cancel it (its `setTimeout` handle was never stored),
and when it fires after teardown it re-registers a subscription — the
state IS mutated by a timer delivered after teardown, contradicting
"after teardown no timer or channel event delivered afterward mutates any
state". -/
theorem teardown_untracked_timer_counterexample :
    Teardown.channelRetryTimerFires (Teardown.destroy Teardown.pendingRetryState) ≠
      Teardown.destroy Teardown.pendingRetryState ∧
    (Teardown.channelRetryTimerFires
        (Teardown.destroy Teardown.pendingRetryState)).activeChannels = [1] := by
  decide

/-- C8 (amended): for every subscription closed by `removeSubscription`
or torn down via `destroy()` while a coalescing timer is pending, that
timer is cancelled and its callback never fires after teardown (the state
is unchanged when the cancelled timer's due time arrives).  However,
pending `CHANNEL_ERROR` re-creation timers and reconnection timers are
not tracked by the manager, so `destroy()` does not cancel them and one
that fires after teardown still mutates state (re-creating a
subscription). -/
theorem teardown_coalescing_timers_cancelled :
    (∀ (s : Teardown.MgrState) (cid : Nat),
      s.activeChannels.contains cid = true →
      Teardown.coalescingTimerFires cid (Teardown.removeSubscription cid s) =
        Teardown.removeSubscription cid s) ∧
    (∀ (s : Teardown.MgrState) (cid : Nat),
      Teardown.coalescingTimerFires cid (Teardown.destroy s) =
        Teardown.destroy s) ∧
    (Teardown.destroy Teardown.pendingRetryState).pendingChannelRetryTimers = 1 := by
  refine ⟨?_, ?_, by decide⟩
  · intro s cid h
    have h2 : cid ∈ s.activeChannels := by simpa using h
    simp [Teardown.coalescingTimerFires, Teardown.removeSubscription, h2,
      Teardown.findTimeout_deleteKey]
  · intro s cid
    simp [Teardown.coalescingTimerFires, Teardown.destroy, Teardown.findTimeout]

/-- A concrete state with one registered channel carrying a pending

afterwards changes nothing. -/
theorem teardown_coalescing_timers_cancelled_witness :
    Teardown.timerState.activeChannels.contains 0 = true ∧
    Teardown.coalescingTimerFires 0
        (Teardown.removeSubscription 0 Teardown.timerState) =
      Teardown.removeSubscription 0 Teardown.timerState :=
  ⟨by decide,
   teardown_coalescing_timers_cancelled.1 Teardown.timerState 0 (by decide)⟩

/-! ### Claim C9 -/

/-- C9 counterexample: not every status change is broadcast.  Register
listener 0 on the fresh manager (it is immediately invoked with
`disconnected`), then run `init()`: the stored status changes to
`connecting` (`initEvents` contains that change) and then to `connected`,
but listener 0 is never invoked with `"connecting"` — its invocations are
exactly `disconnected` (at registration) and `connected`.  This
contradicts "every subsequent status change is broadcast synchronously to
all registered listeners". -/
theorem listeners_init_change_not_broadcast_counterexample :
    (Listeners.runEvents (Listeners.addConnectionListener 0 {})
        Listeners.initEvents).invocations =
      [(0, "disconnected"), (0, "connected")] ∧
    Listeners.MgrEvent.statusChange .connecting ∈ Listeners.initEvents := by
  constructor
  · rfl
  · decide

/-- C9 (amended): every listener passed to `addConnectionListener` is
synchronously invoked exactly once with the stored connection status at
the moment of registration, and every `notifyConnectionListeners` call
synchronously invokes all registered listeners, in registration order,
with the status it carries.  However, not every stored-status change is
broadcast: `init()` changes the status to `connecting` without any
notification (listeners first hear `connected`). -/
theorem listeners_contract :
    (∀ (l : Nat) (s : Listeners.ListState),
      (Listeners.addConnectionListener l s).invocations =
        s.invocations ++ [(l, Reconn.connStatusStr s.connectionStatus)]) ∧
    (∀ (st : String) (s : Listeners.ListState),
      (Listeners.notifyConnectionListeners st s).invocations =
        s.invocations ++ s.listeners.map (fun l => (l, st))) ∧
    ((Listeners.runEvents (Listeners.addConnectionListener 0 {})
        Listeners.initEvents).invocations =
      [(0, "disconnected"), (0, "connected")]) := by
  exact ⟨fun l s => rfl, fun st s => rfl, rfl⟩

/-! ### Claim C10 -/

/-- C10: every invocation of `fetchRequests` that actually runs — i.e.
whose outcome is not the skip of the in-flight guard (success, cache hit,
abort, or the uncaught error of the dead catch block) — leaves the
in-flight flag false when it completes, because the `finally` block
always clears it; so no failed or aborted fetch can permanently block
future fetches.  (An invocation skipped by the in-flight guard leaves the
flag untouched; it is still held by the fetch in flight, which clears it
on completion.) -/
theorem fetch_inflight_flag_always_cleared (b : Bool) (n : Nat)
    (res : FetchSync.NetworkResult) (s : FetchSync.FetchState)
    (h : (FetchSync.fetchRequests b n res s).2 ≠ .skippedInFlight) :
    (FetchSync.fetchRequests b n res s).1.fetchInProgress = false := by
  by_cases hf : s.fetchInProgress = true
  · exact absurd (by rw [FetchSync.inFlight_skip b n res s hf]) h
  · exact FetchSync.flag_false_after b n res s (by simpa using hf)

/-- Witness for C10: a failing fetch from the initial state (outcome: the
uncaught error path) still ends with the in-flight flag false. -/
theorem fetch_inflight_flag_always_cleared_witness :
    (FetchSync.fetchRequests true 0 .queryError {}).2 ≠ .skippedInFlight ∧
    (FetchSync.fetchRequests true 0 .queryError {}).1.fetchInProgress = false :=
  ⟨by decide, fetch_inflight_flag_always_cleared true 0 .queryError {} (by decide)⟩
